import Mathlib

/-!
Verification development for the pynetgen repository: a shallow embedding of
the NETGEN / grid flow-network generators, their pseudo-random generator and
the "index list" scratch structure, together with theorems settling the
specification claims.  All definitions are translated from the Python source
(`src/pynetgen/util/randit.py`, `src/pynetgen/util/ilist.py`,
`src/pynetgen/gen/netgen.py`, `src/pynetgen/gen/grid.py`, and the legacy
module `pynetgen/util/random.py`).  Python integers are modelled as `Int`
(`Nat` for the RNG state, which is always nonnegative), fallible operations
(raised exceptions) as `Except String`, and `while` loops by fuel-indexed
recursion.
-/

namespace Pynetgen

/-! ### The NETGEN Lehmer pseudo-random generator (`util/randit.py`) -/

/-- One application of the hi/lo Lehmer transform, exactly as in
`NetgenRandom.generate` (randit.py lines 151-163).  For a nonnegative
Python integer, `>>` and `&` agree with `Nat.shiftRight`/`Nat.land`; the
step `lo -= 2147483647` can go negative, so it is carried out in `Int`. -/
def netgenNext (s : Nat) : Nat :=
  let hi := 16807 * (s >>> 16)
  let lo := 16807 * (s &&& 0xffff)
  let hi := hi + (lo >>> 16)
  let lo := lo &&& 0xffff
  let lo := lo + (hi >>> 15)
  let hi := hi &&& 0x7fff
  let lo : Int := (lo : Int) - 2147483647
  let prev : Int := ((hi : Nat) <<< 16 : Nat) + lo
  let prev : Int := if prev < 0 then prev + 2147483647 else prev
  prev.toNat

/-- The hi/lo transform exactly as written in the specification's pseudocode
(spec section 4.1): `hi = 16807*(s >> 16); lo = 16807*(s & 0xffff);
hi += lo >> 16; lo = lo & 0xffff; lo += hi >> 15; hi = hi & 0x7fff;
lo -= 2147483647; s' = (hi << 16) + lo; if s' < 0: s' += 2147483647`,
computed over unbounded (hence also 64-bit-exact) signed integers. -/
def lehmerSpecNext (s : Nat) : Int :=
  let hi : Int := 16807 * ((s : Nat) >>> 16 : Nat)
  let lo : Int := 16807 * ((s : Nat) &&& 0xffff : Nat)
  let hi : Int := hi + lo / 65536
  let lo : Int := lo % 65536
  let lo : Int := lo + hi / 32768
  let hi : Int := hi % 32768
  let lo : Int := lo - 2147483647
  let s' : Int := hi * 65536 + lo
  if s' < 0 then s' + 2147483647 else s'

/-- `NetgenRandom.generate` (randit.py lines 125-169).  Takes the current
`previous` state and the two bounds; returns the drawn value together with
the updated `previous`, or the raised `ValueError`.  The state is updated
by the hi/lo transform *before* the `b <= a` test, exactly as in source. -/
def NetgenRandom.generate (prev : Nat) (a b : Int) : Except String (Int × Nat) :=
  if a < 0 ∨ b < 0 then
    .error "ValueError: random number bounds must be nonnegative"
  else
    -- C implementation public domain generator, then update previous value
    let p := netgenNext prev
    -- Decide which value to output
    if b ≤ a then .ok (b, p)
    else .ok (a + (p : Int) % (b - a + 1), p)

/-- The legacy `RandomIterator.generate` with `pseudo=True`
(`pynetgen/util/random.py` lines 72-112).  Note the differences from
`NetgenRandom.generate`: only `a < 0` is checked, and the `b <= a` test
short-circuits *before* the transform, leaving the seed unchanged. -/
def RandomIterator.generate (seed : Nat) (a b : Int) : Except String (Int × Nat) :=
  if a < 0 then
    .error "ValueError: random number bounds must be nonnegative"
  else if b ≤ a then .ok (b, seed)
  else
    let p := netgenNext seed
    .ok (a + (p : Int) % (b - a + 1), p)

/-! ### IndexList (`util/ilist.py`, current version) -/

/-- The index list: the underlying Python list plus the raw `_pseudo_size`
field (which the `remove` method can drive below zero; the public
`pseudo_size` property clamps it at zero). -/
structure IndexList where
  elems : List Int
  ps : Int
  deriving Repr, DecidableEq

/-- `IndexList.__init__(a, b)` with both bounds given (ilist.py lines 49-64):
raises `ValueError` when `b < a`, otherwise holds `a, a+1, ..., b` with
`_pseudo_size` equal to the length. -/
def IndexList.make (a b : Int) : Except String IndexList :=
  if b < a then .error "ValueError: index list bounds must satisfy b >= a"
  else .ok { elems := (List.range (b - a + 1).toNat).map (fun i => a + i)
             ps := b - a + 1 }

/-- The `pseudo_size` property (ilist.py lines 126-137): `max(_pseudo_size, 0)`. -/
def IndexList.pseudo_size (l : IndexList) : Int := max l.ps 0

/-- `len` of the underlying list. -/
def IndexList.len (l : IndexList) : Int := l.elems.length

/-- `IndexList.pop` (ilist.py lines 68-93): 1-based removal.  An invalid
index returns 0 and leaves the list *and* `_pseudo_size` unchanged; a valid
index decrements `_pseudo_size` (only when positive) and removes and
returns the element. -/
def IndexList.pop (l : IndexList) (index : Int) : Int × IndexList :=
  if index < 1 ∨ index > l.len then
    -- Return 0 for an invalid index
    (0, l)
  else
    -- Decrement pseudo size (unless already zero), pop (offset by 1)
    let ps' := if l.ps > 0 then l.ps - 1 else l.ps
    let i := (index - 1).toNat
    (l.elems.getD i 0, { elems := l.elems.eraseIdx i, ps := ps' })

/-- `IndexList.remove` (ilist.py lines 100-119): always reduces the pseudo
size by 1 (through the clamping property getter and the raw setter), then
deletes the first occurrence of the value if present, without error. -/
def IndexList.remove (l : IndexList) (v : Int) : IndexList :=
  { elems := l.elems.erase v, ps := l.pseudo_size - 1 }

/-- Variant of `remove` whose argument is a Python value that may be `None`
(as happens at `IndList.remove(tail[i])` in netgen.py line 262 when the
scratch entry is unset): `list.remove(None)` on a list of ints raises the
`ValueError` that `remove` catches, so nothing is deleted, but the pseudo
size still drops by 1. -/
def IndexList.removePy (l : IndexList) (v : Option Int) : IndexList :=
  { elems := match v with
             | some x => l.elems.erase x
             | none => l.elems
    ps := l.pseudo_size - 1 }

/-! ### Python list plumbing

Reads and writes of Python lists with `Int` indices: a negative index wraps
from the end, an out-of-range index raises `IndexError`.  Unset scratch
entries are `none` (Python `None`); using one where an int is required
raises `TypeError`. -/

def pyGet [Inhabited α] (l : List α) (i : Int) : Except String α :=
  let j := if i < 0 then i + l.length else i
  if 0 ≤ j ∧ j < (l.length : Int) then .ok (l.getD j.toNat default)
  else .error "IndexError: list index out of range"

def pySet (l : List α) (i : Int) (x : α) : Except String (List α) :=
  let j := if i < 0 then i + l.length else i
  if 0 ≤ j ∧ j < (l.length : Int) then .ok (l.set j.toNat x)
  else .error "IndexError: list assignment index out of range"

/-- A Python value that must be an int (not `None`) to proceed. -/
def reqInt : Option Int → Except String Int
  | some v => .ok v
  | none => .error "TypeError: NoneType where int expected"

/-- Python `x > y` on possibly-`None` operands (`TypeError` when unset). -/
def pyGT : Option Int → Option Int → Except String Bool
  | some x, some y => .ok (decide (y < x))
  | _, _ => .error "TypeError: '>' not supported"

/-! ### The NETGEN generator (`gen/netgen.py`) -/

/-- The parameters of `NetgenNetworkGenerator.__init__` (netgen.py lines
21-24), with the RNG fixed to the default `rng=0` (`NetgenRandom`) path and
`seed` already the validated positive seed held by the RNG. -/
structure NetgenParams where
  seed : Nat
  nodes : Int
  sources : Int
  sinks : Int
  density : Int
  mincost : Int
  maxcost : Int
  supply : Int
  tsources : Int
  tsinks : Int
  hicost : Int
  capacitated : Int
  mincap : Int
  maxcap : Int
  type_ : Option Int
  deriving Repr

/-- The mutable attributes of a `NetgenNetworkGenerator` (netgen.py lines
126-134): the RNG `previous` value, `_arc_count`, `_nodes_left`, the supply
vector `_b`, the problem-type tag `_type`, and the four arc arrays
preallocated to length `density` with entries `None`. -/
structure NGState where
  rng : Nat
  arc_count : Int
  nodes_left : Int
  b : List Int
  tpe : Int
  fro : List (Option Int)
  toA : List (Option Int)
  cA : List (Option Int)
  uA : List (Option Int)
  deriving Repr

/-- An RNG draw made through `self.Rng.generate`, threading the state. -/
def NGState.gen (st : NGState) (a b : Int) : Except String (Int × NGState) := do
  let (v, r) ← NetgenRandom.generate st.rng a b
  .ok (v, { st with rng := r })

/-- Record one arc: the four array writes at `self._arc_count` followed by
the increment (netgen.py lines 280-285 and 393-399).  The tail and head may
be unset scratch values (`None`), which Python stores as-is. -/
def NGState.record (st : NGState) (t h : Option Int) (c u : Int) :
    Except String NGState := do
  let fro ← pySet st.fro st.arc_count t
  let toA ← pySet st.toA st.arc_count h
  let cA ← pySet st.cA st.arc_count (some c)
  let uA ← pySet st.uA st.arc_count (some u)
  .ok { st with fro := fro, toA := toA, cA := cA, uA := uA,
                arc_count := st.arc_count + 1 }

/-- `NetgenNetworkGenerator._create_supply` (netgen.py lines 333-343). -/
def create_supply (p : NetgenParams) (st : NGState) : Except String NGState := do
  -- supply_per_source = int(self.supply/self.sources)
  if p.sources = 0 then .error "ZeroDivisionError: division by zero" else do
  let supply_per_source := p.supply / p.sources
  let st ← (List.range p.sources.toNat).foldlM (fun st i => do
    let (part, st) ← st.gen 1 supply_per_source
    let bi ← pyGet st.b (i : Int)
    let b ← pySet st.b (i : Int) (bi + part)
    let st := { st with b := b }
    let (r, st) ← st.gen 0 (p.sources - 1)
    let br ← pyGet st.b r
    let b ← pySet st.b r (br + (supply_per_source - part))
    .ok { st with b := b }) st
  let (r, st) ← st.gen 0 (p.sources - 1)
  let br ← pyGet st.b r
  let b ← pySet st.b r (br + p.supply % p.sources)
  .ok { st with b := b }

/-- The inner `while i >= 1 and tail[i] > tail[i+m]` loop of
`_sort_skeleton` (netgen.py lines 356-359), with fuel for the recursion. -/
def sortInner (m : Int) :
    Nat → Int → List (Option Int) × List (Option Int) →
    Except String (List (Option Int) × List (Option Int))
  | 0, _, _ => .error "FUEL"
  | fuel + 1, i, (tail, head) =>
    if i ≥ 1 then do
      let ti ← pyGet tail i
      let tim ← pyGet tail (i + m)
      let gt ← pyGT ti tim
      if gt then do
        let tail ← pySet tail i tim
        let tail ← pySet tail (i + m) ti
        let hi ← pyGet head i
        let him ← pyGet head (i + m)
        let head ← pySet head i him
        let head ← pySet head (i + m) hi
        sortInner m fuel (i - m) (tail, head)
      else .ok (tail, head)
    else .ok (tail, head)

/-- The outer gap loop of `_sort_skeleton` (netgen.py lines 350-360). -/
def sortOuter (sort_count : Int) :
    Nat → Int → List (Option Int) × List (Option Int) →
    Except String (List (Option Int) × List (Option Int))
  | 0, _, _ => .error "FUEL"
  | fuel + 1, m, (tail, head) =>
    if m ≠ 0 then do
      let k := sort_count - m
      let th ← (List.range k.toNat).foldlM (fun th j =>
        sortInner m (sort_count.toNat + 2) ((j : Int) + 1) th) (tail, head)
      sortOuter sort_count fuel (m / 2) th
    else .ok (tail, head)

/-- `NetgenNetworkGenerator._sort_skeleton` (netgen.py lines 347-360): a
Shell sort of `tail[1..sort_count]` (with `head` swapped in lockstep). -/
def sort_skeleton (sort_count : Int) (tail head : List (Option Int)) :
    Except String (List (Option Int) × List (Option Int)) :=
  sortOuter sort_count (sort_count.toNat + 2) (sort_count / 2) (tail, head)

/-- The emission loop `while limit > 0` of `_pick_head` (netgen.py lines
386-399): pop a candidate head by pseudo-size, roll the capacity, and emit
the arc only when the popped index is a real node. -/
def pickLoop (p : NetgenParams) (desired_tail : Option Int) :
    Nat → Int → IndexList → NGState → Except String NGState
  | 0, _, _, _ => .error "FUEL"
  | fuel + 1, limit, IList, st =>
    if limit > 0 then do
      let limit := limit - 1
      let (r, st) ← st.gen 1 IList.pseudo_size
      let (index, IList) := IList.pop r
      let cap := p.supply
      let (roll, st) ← st.gen 1 100
      let (cap, st) ←
        if roll ≤ p.capacitated then st.gen p.mincap p.maxcap
        else .ok (cap, st)
      if 1 ≤ index ∧ index ≤ p.nodes then do
        let (cost, st) ← st.gen p.mincost p.maxcost
        let st ← st.record desired_tail (some index) cost cap
        pickLoop p desired_tail fuel limit IList st
      else
        pickLoop p desired_tail fuel limit IList st
    else .ok st

/-- The `while True` draw-retry loop choosing `limit` in `_pick_head`
(netgen.py lines 379-384). -/
def pickLimit (p : NetgenParams) (remaining_arcs upper : Int) :
    Nat → NGState → Except String (Int × NGState)
  | 0, _ => .error "FUEL"
  | fuel + 1, st => do
    let (limit, st) ← st.gen 1 upper
    let limit := if st.nodes_left = 0 then remaining_arcs else limit
    if st.nodes_left * (p.nodes - p.sources + p.tsources - 1) ≥
        remaining_arcs - limit then
      .ok (limit, st)
    else
      pickLimit p remaining_arcs upper fuel st

/-- `NetgenNetworkGenerator._pick_head` (netgen.py lines 364-399).  The two
float divisions are modelled exactly: the guard on line 374 as a rational
comparison, and `upper_bound = 2*(remaining/(nodes_left+1) - 1)` truncated
by `int()` inside `generate` as the truncating `Int` division of
`2*remaining - 2*(nodes_left+1)` by `nodes_left + 1` (the floats are exact
at the magnitudes that occur). -/
def pick_head (p : NetgenParams) (fuel : Nat) (IList : IndexList)
    (desired_tail : Option Int) (st : NGState) : Except String NGState := do
  let non_sources := p.nodes - p.sources + p.tsources
  let remaining_arcs := p.density - st.arc_count
  let st := { st with nodes_left := st.nodes_left - 1 }
  if 2 * st.nodes_left ≥ remaining_arcs then .ok st else do
  let den := st.nodes_left + 1
  if den = 0 then .error "ZeroDivisionError: division by zero" else do
  let num := remaining_arcs + non_sources - IList.pseudo_size - 1
  let cond := if den > 0 then num ≥ (non_sources - 1) * den
              else num ≤ (non_sources - 1) * den
  let (limit, st) ←
    if cond then .ok (non_sources, st)
    else pickLimit p remaining_arcs ((2 * remaining_arcs - 2 * den) / den) fuel st
  pickLoop p desired_tail fuel limit IList st

/-- The backwards chain walk `while node != source` collecting scheleton
heads and tails (netgen.py lines 206-210).  The loop variable can hold
`None` (Python compares it unequal to any int and then fails on
`pred[node]`). -/
def chainWalk (source : Int) :
    Nat → Option Int → Int → List (Option Int) × List (Option Int) →
    List (Option Int) →
    Except String (Int × (List (Option Int) × List (Option Int)))
  | 0, _, _, _, _ => .error "FUEL"
  | fuel + 1, node, sort_count, (tail, head), pred =>
    if node ≠ some source then do
      let sort_count := sort_count + 1
      let head ← pySet head sort_count node
      let nv ← reqInt node
      let pv ← pyGet pred nv
      let tail ← pySet tail sort_count pv
      chainWalk source fuel pv sort_count (tail, head) pred
    else .ok (sort_count, (tail, head))

/-- The `while len(IndList) > 0` backfill of unselected sinks on the last
source (netgen.py lines 228-231). -/
def lastSourceFill (b : List Int) :
    Nat → IndexList → List (Option Int) → Int →
    Except String (List (Option Int) × Int)
  | 0, _, _, _ => .error "FUEL"
  | fuel + 1, SList, sinksArr, sps =>
    if SList.len > 0 then do
      let (j, SList) := SList.pop 1
      let bj ← pyGet b j
      if bj = 0 then do
        let sinksArr ← pySet sinksArr sps (some j)
        lastSourceFill b fuel SList sinksArr (sps + 1)
      else
        lastSourceFill b fuel SList sinksArr sps
    else .ok (sinksArr, sps)

/-- The skeleton-attribute assignment `while i <= sort_count` loop with its
inner `while it == tail[i]` group loop (netgen.py lines 258-289), ending
each tail group with a `_pick_head` call. -/
def skelAssignInner (p : NetgenParams) (fuel : Nat) (sourceIdx : Int)
    (tail head : List (Option Int)) (it : Option Int) :
    Nat → Int → IndexList → NGState → Except String (Int × NGState)
  | 0, _, _, _ => .error "FUEL"
  | ifuel + 1, i, IndList, st => do
    let ti ← pyGet tail i
    if ti = it then do
      let hi ← pyGet head i
      let IndList := IndList.removePy hi
      -- Determine capacity
      let cap := p.supply
      let (r1, st) ← st.gen 1 100
      let (cap, st) ←
        if r1 ≤ p.capacitated then do
          let bs ← pyGet st.b (sourceIdx - 1)
          .ok (max bs p.mincap, st)
        else .ok (cap, st)
      -- Determine cost
      let cost := p.maxcost
      let (r2, st) ← st.gen 1 100
      let (cost, st) ←
        if r2 > p.hicost then st.gen p.mincost p.maxcost
        else .ok (cost, st)
      -- Record attributes
      let st ← st.record it hi cost cap
      skelAssignInner p fuel sourceIdx tail head it ifuel (i + 1) IndList st
    else do
      let st ← pick_head p fuel IndList it st
      .ok (i, st)

/-- The outer `while i <= sort_count` loop of the skeleton-attribute
assignment (netgen.py lines 258-289). -/
def skelAssignOuter (p : NetgenParams) (fuel : Nat) (sourceIdx : Int)
    (sort_count : Int) (tail head : List (Option Int)) :
    Nat → Int → NGState → Except String NGState
  | 0, _, _ => .error "FUEL"
  | ofuel + 1, i, st =>
    if i ≤ sort_count then do
      let IndList ← IndexList.make (p.sources - p.tsources + 1) p.nodes
      let ti ← pyGet tail i
      let IndList := IndList.removePy ti
      let it := ti
      let (i, st) ← skelAssignInner p fuel sourceIdx tail head it
        (sort_count.toNat + p.density.toNat + 2) i IndList st
      skelAssignOuter p fuel sourceIdx sort_count tail head ofuel i st
    else .ok st

/-- The chain-hopping inner loop `for j in range(rng(1, chain_length), 0, -1):
k = pred[k]` (netgen.py lines 249-250). -/
def chainHop (pred : List (Option Int)) (steps : Nat) (k : Option Int) :
    Except String (Option Int) :=
  (List.range steps).foldlM (fun k _ => do
    let kv ← reqInt k
    pyGet pred kv) k

/-- The body of the per-source skeleton loop (netgen.py lines 200-289):
chain collection, sink selection, supply distribution, skeleton sort and
attribute assignment. -/
def perSource (p : NetgenParams) (fuel : Nat)
    (acc : NGState × List (Option Int) × (List (Option Int) × List (Option Int)))
    (s : Nat) : Except String
      (NGState × List (Option Int) × (List (Option Int) × List (Option Int))) := do
  let (st, pred, tail, head) := acc
  let sourceIdx : Int := (s : Int) + 1
  -- Record heads/tails by traversing the chain backwards
  let node ← pyGet pred sourceIdx
  let (sort_count, tail, head) ← (do
    let (sc, th) ← chainWalk sourceIdx (p.nodes.toNat + 2) node 0 (tail, head) pred
    Except.ok (sc, th.1, th.2))
  -- Choose number of sinks to link to this chain
  let sinks_per_source ←
    if p.nodes = p.sources + p.sinks then
      -- int(self.sinks/self.sources) + 1
      if p.sources = 0 then .error "ZeroDivisionError: division by zero"
      else .ok (p.sinks / p.sources + 1)
    else
      if p.nodes - p.sources - p.sinks = 0 then
        .error "ZeroDivisionError: division by zero"
      else .ok (2 * ((sort_count * p.sinks) / (p.nodes - p.sources - p.sinks)))
  let sinks_per_source := max 2 (min sinks_per_source p.sinks)
  -- Choose the sinks to link to this chain
  let sinksArr : List (Option Int) := List.replicate p.nodes.toNat none
  let SList ← IndexList.make (p.nodes - p.sinks) (p.nodes - 1)
  let (sinksArr, SList, st) ←
    (List.range sinks_per_source.toNat).foldlM (fun acc2 i => do
      let (sinksArr, SList, st) := acc2
      let (r, st) ← NGState.gen st 1 SList.len
      let (v, SList) := SList.pop r
      let sinksArr ← pySet sinksArr (i : Int) (some v)
      Except.ok (sinksArr, SList, st)) (sinksArr, SList, st)
  -- Ensure that any unselected sinks are chosen for the last source
  let (sinksArr, sinks_per_source) ←
    if sourceIdx = p.sources ∧ SList.len > 0 then
      lastSourceFill st.b (SList.elems.length + 2) SList sinksArr sinks_per_source
    else .ok (sinksArr, sinks_per_source)
  -- Distribute supply among the selected sinks
  let chain_length := sort_count
  let bsrc ← pyGet st.b (sourceIdx - 1)
  let supply_per_sink := bsrc.fdiv sinks_per_source
  let k ← pyGet pred sourceIdx
  let (st, tail, head, sort_count, _) ←
    (List.range sinks_per_source.toNat).foldlM (fun acc2 i => do
      let (st, tail, head, sort_count, k) := acc2
      let sort_count : Int := sort_count + 1
      let (part, st) ← NGState.gen st 1 supply_per_sink
      let (j, st) ← NGState.gen st 0 (sinks_per_source - 1)
      let tail ← pySet tail sort_count k
      let si ← pyGet sinksArr (i : Int) >>= reqInt
      let head ← pySet head sort_count (some (si + 1))
      let bsi ← pyGet st.b si
      let b ← pySet st.b si (bsi - part)
      let st := { st with b := b }
      let sj ← pyGet sinksArr j >>= reqInt
      let bsj ← pyGet st.b sj
      let b ← pySet st.b sj (bsj - (supply_per_sink - part))
      let st := { st with b := b }
      let k : Option Int := some sourceIdx
      let (steps, st) ← NGState.gen st 1 chain_length
      let k ← chainHop pred steps.toNat k
      Except.ok (st, tail, head, sort_count, k)) (st, tail, head, (sort_count : Int), k)
  let bsrc2 ← pyGet st.b (sourceIdx - 1)
  let s0 ← pyGet sinksArr 0 >>= reqInt
  let b0 ← pyGet st.b s0
  let b ← pySet st.b s0 (b0 - bsrc2 % sinks_per_source)
  let st := { st with b := b }
  -- Sort skeleton arcs into a canonical order, set the sentinel
  let (tail, head) ← sort_skeleton sort_count tail head
  let tail ← pySet tail (sort_count + 1) (some 0)
  -- Assign attributes to skeleton arcs
  let st ← skelAssignOuter p fuel sourceIdx sort_count tail head
    (sort_count.toNat + 2) 1 st
  .ok (st, pred, tail, head)

/-- `NetgenNetworkGenerator._create_problem` (netgen.py lines 154-299). -/
def create_problem (p : NetgenParams) (fuel : Nat) (st : NGState) :
    Except String NGState := do
  -- Initialize variables
  let pred : List (Option Int) := List.replicate p.nodes.toNat none
  let head : List (Option Int) := st.fro
  let tail : List (Option Int) := st.fro
  -- Set supply values
  let st ← create_supply p st
  -- Point sources at selves
  let pred ← (List.range p.sources.toNat).foldlM (fun pred i =>
    pySet pred ((i : Int) + 1) (some ((i : Int) + 1))) pred
  -- Make an index list for the nodes
  let IndList ← IndexList.make (p.sources + 1) (p.nodes - p.sinks)
  -- Distribute the first 60% of transshipment nodes evenly among sources:
  -- for i in range(nodes-sources-sinks, int((4*(nodes-sources-sinks)+9)/10), -1)
  let T := p.nodes - p.sources - p.sinks
  let K := (4 * T + 9) / 10
  let (st, pred, IndList, _source) ←
    (List.range (T - K).toNat).foldlM (fun acc _ => do
      let (st, pred, IndList, source) := acc
      let (r, st) ← NGState.gen st 1 IndList.len
      let (node, IndList) := IndList.pop r
      let pv ← pyGet pred (source : Int)
      let pred ← pySet pred node pv
      let pred ← pySet pred source (some node)
      let source := source + 1
      let source := if source > p.sources then 1 else source
      Except.ok (st, pred, IndList, source)) (st, pred, IndList, (1 : Int))
  -- Distribute the remaining transshipment nodes randomly: `while i > 1`.
  -- Python's `i` here is the leaked loop variable: `K+1` when the loop
  -- above ran, otherwise `sources` from the self-pointing loop (or unbound
  -- when that loop was empty too).
  let iLeak : Int ←
    if T - K > 0 then .ok (K + 1)
    else if p.sources ≥ 1 then .ok p.sources
    else .error "NameError: name 'i' is not defined"
  let (st, pred, _IndList) ←
    (List.range (iLeak - 1).toNat).foldlM (fun acc _ => do
      let (st, pred, IndList) := acc
      let (r, st) ← NGState.gen st 1 IndList.len
      let (node, IndList) := IndList.pop r
      let (srcv, st) ← NGState.gen st 1 p.sources
      let pv ← pyGet pred srcv
      let pred ← pySet pred node pv
      let pred ← pySet pred srcv (some node)
      Except.ok (st, pred, IndList)) (st, pred, IndList)
  -- Process each source chain
  let (st, _pred, _tail, _head) ←
    (List.range p.sources.toNat).foldlM (perSource p fuel)
      (st, pred, tail, head)
  -- Complete network with random arcs:
  -- for i in range(nodes - sinks + 1, nodes - sinks + tsinks)
  let st ← (List.range (p.tsinks - 1).toNat).foldlM (fun st idx => do
    let i : Int := p.nodes - p.sinks + 1 + (idx : Int)
    let IndList ← IndexList.make (p.sources - p.tsources + 1) p.nodes
    let IndList := IndList.removePy (some i)
    pick_head p fuel IndList (some i) st) st
  .ok st

/-- `NetgenNetworkGenerator._create_assignment` (netgen.py lines 303-329).
Its first statement is `for source in range(self.nodes/2)`; in Python 3
`self.nodes/2` is a float, so `range` immediately raises `TypeError` on
every call, before any other effect. -/
def create_assignment (_p : NetgenParams) (_st : NGState) :
    Except String NGState :=
  .error "TypeError: 'float' object cannot be interpreted as an integer"

/-- The implicit problem-type classification of netgen.py lines 137-145
(executed only when no `type` override is given): Assignment (2) when
`sources - tsources + sinks - tsinks == nodes` and `sources - tsources ==
sinks - tsinks` and `sources == supply`; else MaxFlow (1) when
`mincost == maxcost == 1`; else MinCostFlow (0). -/
def netgenClassify (p : NetgenParams) : Int :=
  if p.sources - p.tsources + p.sinks - p.tsinks = p.nodes ∧
      p.sources - p.tsources = p.sinks - p.tsinks ∧
      p.sources = p.supply then 2
  else if p.mincost = 1 ∧ p.maxcost = 1 then 1
  else 0

/-- `NetgenNetworkGenerator.__init__` (netgen.py lines 21-150): validation
in source order (with `supply` clamped by `max(int(supply), 0)`), state
initialization, the implicit problem-type classification — executed only
when no `type` override is given, and never copying an override into
`self._type` — then `_create_assignment()` when the raw `type` argument
equals 2, and finally `_create_problem()` unconditionally. -/
def netgenInit (p : NetgenParams) (fuel : Nat) : Except String NGState := do
  if p.nodes < 0 then .error "ValueError: node count must be nonnegative" else
  if p.sources < 0 then .error "ValueError: source count must be nonnegative" else
  if p.sinks < 0 then .error "ValueError: sink count must be nonnegative" else
  if p.sources + p.sinks > p.nodes then
    .error "ValueError: source/sink count cannot exceed node count" else
  if p.density < 1 then .error "ValueError: arc count must be nonnegative" else
  if p.nodes > p.density then
    .error "ValueError: node count must exceed arc count" else
  if p.mincost > p.maxcost then
    .error "ValueError: min cost cannot exceed max cost" else do
  let p := { p with supply := max p.supply 0 }
  if p.tsources < 0 then
    .error "ValueError: transshipment source count must be nonnegative" else
  if p.tsources > p.sources then
    .error "ValueError: transshipment sources cannot exceed sources" else
  if p.tsinks < 0 then
    .error "ValueError: transshipment sink count must be nonnegative" else
  if p.tsinks > p.sinks then
    .error "ValueError: transshipment sinks cannot exceed sinks" else
  if p.hicost < 0 ∨ p.hicost > 100 then
    .error "ValueError: high cost percentage must be in [0,100]" else
  if p.capacitated < 0 ∨ p.capacitated > 100 then
    .error "ValueError: capacitated percentage must be in [0,100]" else
  if p.mincap > p.maxcap then
    .error "ValueError: min capacity cannot exceed max capacity" else do
  match p.type_ with
  | some t =>
    if t < 0 ∨ t > 2 then
      .error "ValueError: problem type index must be 0-2 or None"
    else netgenRun p fuel
  | none => netgenRun p fuel
where
  /-- State setup, classification and generation (netgen.py lines 126-150). -/
  netgenRun (p : NetgenParams) (fuel : Nat) : Except String NGState := do
    let none4 : List (Option Int) := List.replicate p.density.toNat none
    let st : NGState :=
      { rng := p.seed, arc_count := 0,
        nodes_left := p.nodes - p.sinks + p.tsinks,
        b := List.replicate p.nodes.toNat 0, tpe := 0,
        fro := none4, toA := none4, cA := none4, uA := none4 }
    -- Determine which type of problem to generate (only without override;
    -- an override is never copied into `self._type`, which stays 0)
    let st :=
      match p.type_ with
      | none => { st with tpe := netgenClassify p }
      | some _ => st
    -- Choose the correct problem generation method: note the comparison is
    -- against the raw `type` argument, not `self._type`
    let st ← if p.type_ = some 2 then create_assignment p st else .ok st
    create_problem p fuel st

/-! ### The grid-based generator (`gen/grid.py`) -/

/-- The parameters of `GridNetworkGenerator.__init__` (grid.py lines 24-27),
with the RNG fixed to the default `rng=0` (`NetgenRandom`) path and `seed`
already the validated positive seed held by the RNG.  `diagonal`, `reverse`
and `wrap` are stored after Python's `bool(int(x))` coercion. -/
structure GridParams where
  seed : Nat
  rows : Int
  columns : Int
  skeleton : Int
  diagonal : Bool
  reverse : Bool
  wrap : Bool
  mincost : Int
  maxcost : Int
  supply : Int
  hicost : Int
  capacitated : Int
  mincap : Int
  maxcap : Int
  type_ : Option Int
  deriving Repr

/-- The mutable state of a `GridNetworkGenerator`: the RNG's `previous`
value, the `_type` tag, and the `_arcs` queue of
`(tail, head, cost, capacity)` tuples (grid.py lines 120-126). -/
structure GridSt where
  rng : Nat
  tpe : Int
  arcs : List (Int × Int × Int × Int)
  deriving Repr, DecidableEq

/-- An RNG draw made through `self.Rng.generate`, threading the grid state. -/
def GridSt.gen (st : GridSt) (a b : Int) : Except String (Int × GridSt) := do
  let (v, r) ← NetgenRandom.generate st.rng a b
  .ok (v, { st with rng := r })

/-- `self._make_arc(tail, head, cost, cap)` (grid.py lines 283-286). -/
def GridSt.make_arc (st : GridSt) (t h c u : Int) : GridSt :=
  { st with arcs := st.arcs ++ [(t, h, c, u)] }

/-- `self._coord_id(i, j)` (grid.py lines 290-301). -/
def coord_id (p : GridParams) (i j : Int) : Int := i * p.columns + j + 2

/-- `math.ceil(supply/skeleton)` for a positive `skeleton`:
`⌈a/b⌉ = ⌊(a+b-1)/b⌋`. -/
def ceilDiv (a b : Int) : Int := (a + b - 1).fdiv b

/-- The body of the West/East loop (grid.py lines 154-171): cost and
capacity draws, then the two skeleton-row rolls when `i < skeleton`. -/
def weBody (p : GridParams) (skeleton_cap : Int) (i : Int) (st : GridSt)
    (j : Nat) : Except String GridSt := do
  let (c, st) ← st.gen p.mincost p.maxcost
  let (u, st) ← st.gen p.mincap p.maxcap
  if i < p.skeleton then do
    -- Roll for high cost
    let (r1, st) ← st.gen 1 100
    let c := if r1 ≤ p.hicost then p.maxcost else c
    -- Roll for capacitated
    let (r2, st) ← st.gen 1 100
    let u := if r2 ≤ p.capacitated then skeleton_cap else p.supply
    .ok (st.make_arc (coord_id p i j) (coord_id p i (j + 1)) c u)
  else
    .ok (st.make_arc (coord_id p i j) (coord_id p i (j + 1)) c u)

/-- A generic interior pass: draw cost then capacity and emit one arc from
`tails i j` to `heads i j`; used for every non-skeleton arc family of
`_create_problem`, which all share this exact body. -/
def plainArc (p : GridParams) (t h : Int) (st : GridSt) :
    Except String GridSt := do
  let (c, st) ← st.gen p.mincost p.maxcost
  let (u, st) ← st.gen p.mincap p.maxcap
  .ok (st.make_arc t h c u)

/-- West/East arcs (grid.py lines 153-171). -/
def wePass (p : GridParams) (skeleton_cap : Int) (st : GridSt) :
    Except String GridSt :=
  (List.range p.rows.toNat).foldlM (fun st i =>
    (List.range (p.columns - 1).toNat).foldlM
      (fun st j => weBody p skeleton_cap i st j) st) st

/-- East/West arcs, only if using reverse arcs (grid.py lines 173-180). -/
def ewPass (p : GridParams) (st : GridSt) : Except String GridSt :=
  if p.reverse then
    (List.range p.rows.toNat).foldlM (fun st i =>
      (List.range (p.columns - 1).toNat).foldlM (fun st j =>
        plainArc p (coord_id p i ((j : Int) + 1)) (coord_id p i j) st) st) st
  else .ok st

/-- North/South arcs with wraparound at the end of each column
(grid.py lines 182-195). -/
def nsPass (p : GridParams) (st : GridSt) : Except String GridSt :=
  (List.range p.columns.toNat).foldlM (fun st j => do
    let st ← (List.range (p.rows - 1).toNat).foldlM (fun st i =>
      plainArc p (coord_id p i j) (coord_id p ((i : Int) + 1) j) st) st
    if p.wrap then
      plainArc p (coord_id p (p.rows - 1) j) (coord_id p 0 j) st
    else .ok st) st

/-- South/North arcs with wraparound (grid.py lines 197-210). -/
def snPass (p : GridParams) (st : GridSt) : Except String GridSt :=
  (List.range p.columns.toNat).foldlM (fun st j => do
    let st ← (List.range (p.rows - 1).toNat).foldlM (fun st i =>
      plainArc p (coord_id p ((i : Int) + 1) j) (coord_id p i j) st) st
    if p.wrap then
      plainArc p (coord_id p 0 j) (coord_id p (p.rows - 1) j) st
    else .ok st) st

/-- Northwest/Southeast arcs, only with diagonal arcs
(grid.py lines 212-226). -/
def nwsePass (p : GridParams) (st : GridSt) : Except String GridSt :=
  if p.diagonal then
    (List.range (p.columns - 1).toNat).foldlM (fun st j => do
      let st ← (List.range (p.rows - 1).toNat).foldlM (fun st i =>
        plainArc p (coord_id p i j) (coord_id p ((i : Int) + 1) ((j : Int) + 1)) st) st
      if p.wrap then
        plainArc p (coord_id p (p.rows - 1) j) (coord_id p 0 ((j : Int) + 1)) st
      else .ok st) st
  else .ok st

/-- Southwest/Northeast arcs, only with diagonal arcs
(grid.py lines 228-242). -/
def swnePass (p : GridParams) (st : GridSt) : Except String GridSt :=
  if p.diagonal then
    (List.range (p.columns - 1).toNat).foldlM (fun st j => do
      let st ← (List.range (p.rows - 1).toNat).foldlM (fun st i =>
        plainArc p (coord_id p ((i : Int) + 1) j) (coord_id p i ((j : Int) + 1)) st) st
      if p.wrap then
        plainArc p (coord_id p 0 j) (coord_id p (p.rows - 1) ((j : Int) + 1)) st
      else .ok st) st
  else .ok st

/-- Southeast/Northwest arcs, only with diagonal and reverse arcs
(grid.py lines 244-258). -/
def senwPass (p : GridParams) (st : GridSt) : Except String GridSt :=
  if p.reverse ∧ p.diagonal then
    (List.range (p.columns - 1).toNat).foldlM (fun st j => do
      let st ← (List.range (p.rows - 1).toNat).foldlM (fun st i =>
        plainArc p (coord_id p ((i : Int) + 1) ((j : Int) + 1)) (coord_id p i j) st) st
      if p.wrap then
        plainArc p (coord_id p 0 ((j : Int) + 1)) (coord_id p (p.rows - 1) j) st
      else .ok st) st
  else .ok st

/-- Northeast/Southwest arcs, only with diagonal and reverse arcs
(grid.py lines 260-274). -/
def neswPass (p : GridParams) (st : GridSt) : Except String GridSt :=
  if p.reverse ∧ p.diagonal then
    (List.range (p.columns - 1).toNat).foldlM (fun st j => do
      let st ← (List.range (p.rows - 1).toNat).foldlM (fun st i =>
        plainArc p (coord_id p i ((j : Int) + 1)) (coord_id p ((i : Int) + 1) j) st) st
      if p.wrap then
        plainArc p (coord_id p (p.rows - 1) ((j : Int) + 1)) (coord_id p 0 j) st
      else .ok st) st
  else .ok st

/-- `GridNetworkGenerator._create_problem` (grid.py lines 141-279): master
source arcs, the eight interior arc families in source order with their
wraparound variants, then master sink arcs. -/
def grid_create_problem (p : GridParams) (st : GridSt) :
    Except String GridSt := do
  -- Determine minimum capacities of skeleton rows
  let skeleton_cap := if p.skeleton > 1 then ceilDiv p.supply p.skeleton
                      else p.supply
  -- Master source arcs
  let st := (List.range p.rows.toNat).foldl
    (fun st i => st.make_arc 1 ((i : Int) + 2) 0 p.supply) st
  let st ← wePass p skeleton_cap st
  let st ← ewPass p st
  let st ← nsPass p st
  let st ← snPass p st
  let st ← nwsePass p st
  let st ← swnePass p st
  let st ← senwPass p st
  let st ← neswPass p st
  -- Master sink arcs
  let node_count : Int := p.rows * p.columns + 2
  let st := (List.range p.rows.toNat).foldl
    (fun st i => st.make_arc (coord_id p (i : Int) (p.columns - 1)) node_count 0 p.supply) st
  .ok st

/-- `GridNetworkGenerator.__init__` (grid.py lines 24-137): parameter
validation in source order, then the problem-type branch, then
`_create_problem`.  The branch taken when a `type` override is present
reads `self.sources`, an attribute that `GridNetworkGenerator` never
assigns anywhere in grid.py, so Python raises `AttributeError` there; that
attribute lookup failure is modelled as the corresponding error. -/
def gridInit (p : GridParams) : Except String GridSt := do
  -- Validate inputs and convert to correct data types
  if p.rows < 1 then .error "ValueError: grid must have at least 1 row" else
  if p.columns < 1 then .error "ValueError: grid must have at least 1 column" else
  if p.skeleton < 0 ∨ p.skeleton > p.rows then
    .error "ValueError: skeleton rows must be between 0 and rows" else
  if p.mincost > p.maxcost then
    .error "ValueError: min cost cannot exceed max cost" else
  if p.hicost < 0 ∨ p.hicost > 100 then
    .error "ValueError: high cost percentage must be in [0,100]" else
  if p.capacitated < 0 ∨ p.capacitated > 100 then
    .error "ValueError: capacitated percentage must be in [0,100]" else
  if p.mincap > p.maxcap then
    .error "ValueError: min capacity cannot exceed max capacity" else do
  match p.type_ with
  | some t =>
    if t < 0 ∨ t > 1 then
      .error "ValueError: problem type index must be 0, 1, or None"
    else
      -- the classification branch `if type is not None:` dereferences
      -- `self.sources`, which is never defined on GridNetworkGenerator
      .error "AttributeError: 'GridNetworkGenerator' object has no attribute 'sources'"
  | none =>
    -- no override: the classification branch is skipped and `_type`
    -- keeps its initial value 0
    grid_create_problem p { rng := p.seed, tpe := 0, arcs := [] }

/-! ### Writer arc lines (`write` in netgen.py and grid.py) -/

/-- Python string conversion of a possibly-unset arc field. -/
def pyStr : Option Int → String
  | some v => toString v
  | none => "None"

/-- The arc line emitted by `NetgenNetworkGenerator.write` for one arc,
by problem type: netgen.py line 441 (`asn`), line 453 (`max`),
lines 463-464 (`min`). -/
def netgenArcLine (tpe : Int) (t h c u : Option Int) : String :=
  if tpe = 2 then s!"a {pyStr t} {pyStr h} {pyStr c}"
  else if tpe = 1 then s!"a {pyStr t} {pyStr h} {pyStr u}"
  else s!"a {pyStr t} {pyStr h} 0 {pyStr u} {pyStr c}"

/-- All arc lines of `NetgenNetworkGenerator.write`
(`for i in range(self._arc_count)`). -/
def netgenArcLines (st : NGState) : List String :=
  (List.range st.arc_count.toNat).map (fun i =>
    netgenArcLine st.tpe (st.fro.getD i none) (st.toA.getD i none)
      (st.cA.getD i none) (st.uA.getD i none))

/-- The arc line emitted by `GridNetworkGenerator.write` for one stored
`(tail, head, cost, capacity)` tuple — the same `f"a {a[0]} {a[1]} {a[2]}
{a[3]}"` (grid.py line 376) for both problem types. -/
def gridArcLine (a : Int × Int × Int × Int) : String :=
  s!"a {a.1} {a.2.1} {a.2.2.1} {a.2.2.2}"

/-- All arc lines of `GridNetworkGenerator.write`. -/
def gridArcLines (st : GridSt) : List String := st.arcs.map gridArcLine

/-- The arc-line form the specification claims for min-cost problems:
`a <tail> <head> 0 <u> <c>`. -/
def claimedMinArcLine (t h u c : Option Int) : String :=
  s!"a {pyStr t} {pyStr h} 0 {pyStr u} {pyStr c}"

/-- The arc-line form the specification claims for max-flow problems:
`a <tail> <head> <u>`. -/
def claimedMaxArcLine (t h u : Option Int) : String :=
  s!"a {pyStr t} {pyStr h} {pyStr u}"

/-- Whether a computation finished without raising. -/
def isOkB : Except String α → Bool
  | .ok _ => true
  | .error _ => false

/-! ### Concrete parameter records used by the claim theorems -/

/-- The default NETGEN parameters (netgen.py lines 21-24; scenario S3). -/
def netgenDefaults : NetgenParams :=
  { seed := 1, nodes := 10, sources := 3, sinks := 3, density := 30,
    mincost := 10, maxcost := 99, supply := 1000, tsources := 0, tsinks := 0,
    hicost := 0, capacitated := 100, mincap := 100, maxcap := 1000,
    type_ := none }

/-- A one-cell grid (all other parameters at their defaults): its arc list
is just the master-source arc and the master-sink arc, drawn with no RNG
use at all. -/
def gridOneCell : GridParams :=
  { seed := 1, rows := 1, columns := 1, skeleton := 1, diagonal := true,
    reverse := false, wrap := false, mincost := 10, maxcost := 99,
    supply := 1000, hicost := 0, capacitated := 100, mincap := 100,
    maxcap := 1000, type_ := none }

/-- Claim C3 input: the default NETGEN parameters with a MaxFlow (`type=1`)
override. -/
def paramsC3 : NetgenParams := { netgenDefaults with type_ := some 1 }

/-- Claim C5 input: the S5 assignment-trigger parameters (`nodes=6,
sources=3, sinks=3, tsources=0, tsinks=0, supply=3`, default costs and
density). -/
def paramsC5 : NetgenParams := { netgenDefaults with nodes := 6, supply := 3 }

/-- Claim C6 input: a record that classifies as MinCostFlow and completes
generation with an unbalanced supply vector: with a single sink,
`sinks_per_source` is clamped up to 2, the second sink pop comes from an
empty index list and returns 0, so the distribution loop subtracts supply
from the source cell `b[0]` itself, and the final remainder correction
`b[sinks[0]] -= b[source-1] % sinks_per_source` then uses the corrupted
value of `b[0]`. -/
def paramsC6 : NetgenParams :=
  { netgenDefaults with seed := 16, nodes := 3, sources := 1, sinks := 1,
                        density := 10 }

/-- Claim C7 input: a record on the boundary `nodes == sources + sinks`
that does not classify as Assignment (`sources != supply`). -/
def paramsC7 : NetgenParams :=
  { netgenDefaults with nodes := 8, sources := 4, sinks := 4 }

/-- Claim C8 input: a minimal-density record with more sources than sinks;
its skeleton needs at least `T + 2*sources = 13` arcs, which exceeds
`density = 10`. -/
def paramsC8 : NetgenParams :=
  { netgenDefaults with sources := 5, sinks := 2, density := 10 }

/-! ## Theorems

Helper lemmas first, then one theorem per claim (with its witness or
counterexample where required). -/

set_option maxHeartbeats 1000000 in
/-- The hi/lo transform written with bit operations (the source) agrees
with the transform written with division and remainder (the spec's
reading over unbounded signed integers). -/
theorem lehmerSpecNext_eq (s : Nat) : lehmerSpecNext s = (netgenNext s : Int) := by
  simp only [lehmerSpecNext, netgenNext]
  have e1 : (65535 : Nat) = 2 ^ 16 - 1 := rfl
  have e2 : (32767 : Nat) = 2 ^ 15 - 1 := rfl
  simp only [Nat.shiftRight_eq_div_pow, Nat.shiftLeft_eq, e1, e2,
    Nat.and_pow_two_sub_one_eq_mod]
  push_cast
  split <;> omega

/-- C1: for every PRNG state `s` in `[0, 2^31-1]` and integer bounds
`0 ≤ a < b`, `NetgenRandom.generate` advances the state by exactly the
hi/lo Lehmer transform of the specification (computed over unbounded
signed integers) and returns `a + s' mod (b - a + 1)`. -/
theorem C1_lehmer_generate (s : Nat) (a b : Int) (_hs : s ≤ 2 ^ 31 - 1)
    (ha : 0 ≤ a) (hab : a < b) :
    NetgenRandom.generate s a b =
      .ok (a + lehmerSpecNext s % (b - a + 1), (lehmerSpecNext s).toNat) := by
  rw [lehmerSpecNext_eq]
  simp only [NetgenRandom.generate]
  rw [if_neg (by omega), if_neg (by omega)]
  simp

/-- C1 witness: the theorem applied at state 1 and bounds `[0, 99]`
(the step produces 16807 and the draw 7). -/
theorem C1_lehmer_generate_witness :
    NetgenRandom.generate 1 0 99 =
      .ok (0 + lehmerSpecNext 1 % (99 - 0 + 1), (lehmerSpecNext 1).toNat) :=
  C1_lehmer_generate 1 0 99 (by decide) (by decide) (by decide)

/-- C2: evaluating the code at the failing input.  On `IndexList(1,3)` an
invalid `choose(5)` (`k > len()`) returns 0 but leaves `pseudo_size` at 3
and the list untouched, whereas the claimed pseudo-size law
`max(0, initial - total calls)` demands 2 after this one call. -/
theorem C2_invalid_choose_keeps_pseudo_size :
    (IndexList.make 1 3).map
      (fun l => ((l.pop 5).1, (l.pop 5).2.pseudo_size, (l.pop 5).2.len)) =
      .ok (0, 3, 3) := rfl

set_option maxRecDepth 100000 in
/-- C3: evaluating the code at the failing input.  With a `type=1`
(MaxFlow) override on otherwise default parameters, the NETGEN generator
completes with `self._type` still 0 (the override is never copied into the
tag the writer uses), and the grid generator raises `AttributeError`
instead of recording any tag. -/
theorem C3_override_never_sets_type :
    (netgenInit paramsC3 1000).map (fun st => st.tpe) = .ok 0 ∧
    gridInit { gridOneCell with type_ := some 1 } =
      .error "AttributeError: 'GridNetworkGenerator' object has no attribute 'sources'" :=
  ⟨rfl, rfl⟩

/-- C4: evaluating the code at the failing input.  The legacy
`RandomIterator.generate` (pynetgen/util/random.py) with seed 1 and bounds
`(a, b) = (5, 3)` returns `b = 3` with the seed left at 1 — the call
short-circuits before the hi/lo transform, contrary to the claim — while
the current `NetgenRandom.generate` does advance the state to 16807. -/
theorem C4_legacy_short_circuits :
    RandomIterator.generate 1 5 3 = .ok (3, 1) ∧
    NetgenRandom.generate 1 5 3 = .ok (3, 16807) := ⟨rfl, rfl⟩

set_option maxRecDepth 100000 in
/-- C5: evaluating the code at the failing input.  The S5 parameters
classify as Assignment (`_type = 2`), but because the dispatch compares
the raw `type` argument (which is `None`) with 2, `_create_assignment` is
never invoked; `_create_problem` runs instead and raises `ValueError` at
`IndexList(sources+1, nodes-sinks)` since `nodes == sources + sinks`.
Even with an explicit `type=2` override, `_create_assignment` itself
raises `TypeError` at `range(self.nodes/2)` under Python 3. -/
theorem C5_assignment_construction_never_runs :
    netgenClassify paramsC5 = 2 ∧
    netgenInit paramsC5 1000 =
      .error "ValueError: index list bounds must satisfy b >= a" ∧
    netgenInit { paramsC5 with type_ := some 2 } 1000 =
      .error "TypeError: 'float' object cannot be interpreted as an integer" :=
  ⟨rfl, rfl, rfl⟩

set_option maxRecDepth 100000 in
/-- C6: evaluating the code at the failing input.  The record `paramsC6`
is valid, classifies as MinCostFlow (`_type = 0`), and generation
completes, yet the final supply vector is `b = [701, 0, -702]` with sum
`-1 ≠ 0`. -/
theorem C6_supply_vector_unbalanced :
    (netgenInit paramsC6 1000).map
      (fun st => (st.tpe, st.b, st.b.foldl (· + ·) 0)) =
      .ok (0, [701, 0, -702], -1) := rfl

set_option maxRecDepth 100000 in
/-- C7: evaluating the code at the failing input.  On the boundary
`nodes == sources + sinks` the chain-construction phase never happens:
`IndexList(sources+1, nodes-sinks)` receives bounds `(5, 4)` and raises
`ValueError`, so no `pred` cycles exist. -/
theorem C7_boundary_raises_before_chains :
    netgenInit paramsC7 1000 =
      .error "ValueError: index list bounds must satisfy b >= a" := rfl

set_option maxRecDepth 100000 in
/-- C8: evaluating the code at the failing input.  On `paramsC8` the
skeleton-arc writes run past the arc arrays preallocated with length
`density`: generation aborts with `IndexError` on a write at
`self._from[self._arc_count]` with `_arc_count ≥ density`. -/
theorem C8_arc_arrays_overflow :
    netgenInit paramsC8 1000 =
      .error "IndexError: list assignment index out of range" := rfl

set_option maxRecDepth 100000 in
/-- C9 counterexample: the one-cell grid classifies as min-cost
(`_type = 0`) and its first emitted arc (tail 1, head 2, cost 0, capacity
1000) is written as `a 1 2 0 1000` — the grid writer's
`a <tail> <head> <c> <u>` form — which differs from the claimed min-cost
form `a <tail> <head> 0 <u> <c>`, which would read `a 1 2 0 1000 0`. -/
theorem C9_grid_line_not_claimed_form :
    (gridInit gridOneCell).map (fun st => (st.tpe, gridArcLines st)) =
      .ok (0, ["a 1 2 0 1000", "a 2 3 0 1000"]) ∧
    claimedMinArcLine (some 1) (some 2) (some 1000) (some 0) = "a 1 2 0 1000 0" ∧
    ¬ (("a 1 2 0 1000" : String) = "a 1 2 0 1000 0") := ⟨rfl, rfl, by decide⟩

/-- C9 (amended): the NETGEN writer emits exactly the claimed forms —
`a <tail> <head> 0 <u> <c>` for min-cost problems and `a <tail> <head> <u>`
for max-flow problems — while the grid writer emits
`a <tail> <head> <cost> <capacity>` for every arc in both problem types. -/
theorem C9_writer_arc_line_forms :
    (∀ t h c u : Option Int, netgenArcLine 0 t h c u = claimedMinArcLine t h u c) ∧
    (∀ t h c u : Option Int, netgenArcLine 1 t h c u = claimedMaxArcLine t h u) ∧
    (∀ st : NGState, netgenArcLines st = (List.range st.arc_count.toNat).map
      (fun i => netgenArcLine st.tpe (st.fro.getD i none) (st.toA.getD i none)
        (st.cA.getD i none) (st.uA.getD i none))) ∧
    (∀ gst : GridSt, gridArcLines gst = gst.arcs.map gridArcLine) ∧
    (∀ tu : Int × Int × Int × Int,
      gridArcLine tu = s!"a {tu.1} {tu.2.1} {tu.2.2.1} {tu.2.2.2}") :=
  ⟨fun _ _ _ _ => rfl, fun _ _ _ _ => rfl, fun _ => rfl, fun _ => rfl,
   fun _ => rfl⟩

/-- A `generate` call with nonnegative bounds never raises. -/
theorem generate_ok (s : Nat) (a b : Int) (ha : 0 ≤ a) (hb : 0 ≤ b) :
    ∃ v r, NetgenRandom.generate s a b = .ok (v, r) := by
  simp only [NetgenRandom.generate]
  rw [if_neg (by omega)]
  split
  · exact ⟨_, _, rfl⟩
  · exact ⟨_, _, rfl⟩

/-- A grid-state RNG draw with nonnegative bounds never raises. -/
theorem GridSt.gen_ok (st : GridSt) (a b : Int) (ha : 0 ≤ a) (hb : 0 ≤ b) :
    ∃ vr, st.gen a b = .ok vr := by
  obtain ⟨v, r, h⟩ := generate_ok st.rng a b ha hb
  exact ⟨(v, { st with rng := r }), by simp only [GridSt.gen, h]; rfl⟩

/-- Sequencing two computations that cannot raise cannot raise. -/
theorem bindOk {α β : Type} {e : Except String α} {f : α → Except String β}
    (he : ∃ a, e = .ok a) (hf : ∀ a, ∃ b, f a = .ok b) :
    ∃ b, (e >>= f) = .ok b := by
  obtain ⟨a, ha⟩ := he
  obtain ⟨b, hb⟩ := hf a
  exact ⟨b, by rw [ha]; exact hb⟩

/-- A monadic fold whose body cannot raise cannot raise. -/
theorem foldlM_ok {α σ : Type} (f : σ → α → Except String σ)
    (hf : ∀ s a, ∃ s', f s a = .ok s') :
    ∀ (l : List α) (s : σ), ∃ s', l.foldlM f s = .ok s' := by
  intro l
  induction l with
  | nil => exact fun s => ⟨s, rfl⟩
  | cons a as ih =>
    intro s
    obtain ⟨s1, h1⟩ := hf s a
    obtain ⟨s2, h2⟩ := ih s1
    exact ⟨s2, by rw [List.foldlM_cons, h1]; exact h2⟩

/-- An interior grid arc with nonnegative cost and capacity bounds never
raises. -/
theorem plainArc_ok (p : GridParams) (hc : 0 ≤ p.mincost) (hc2 : 0 ≤ p.maxcost)
    (hk : 0 ≤ p.mincap) (hk2 : 0 ≤ p.maxcap) (t h : Int) (st : GridSt) :
    ∃ st', plainArc p t h st = .ok st' := by
  simp only [plainArc]
  refine bindOk (st.gen_ok p.mincost p.maxcost hc hc2) ?_
  rintro ⟨c, st1⟩
  refine bindOk (st1.gen_ok p.mincap p.maxcap hk hk2) ?_
  rintro ⟨u, st2⟩
  exact ⟨_, rfl⟩

/-- A West/East arc (with the skeleton-row rolls) never raises. -/
theorem weBody_ok (p : GridParams) (hc : 0 ≤ p.mincost) (hc2 : 0 ≤ p.maxcost)
    (hk : 0 ≤ p.mincap) (hk2 : 0 ≤ p.maxcap) (sc i : Int) (st : GridSt) (j : Nat) :
    ∃ st', weBody p sc i st j = .ok st' := by
  simp only [weBody]
  refine bindOk (st.gen_ok p.mincost p.maxcost hc hc2) ?_
  rintro ⟨c, st1⟩
  refine bindOk (st1.gen_ok p.mincap p.maxcap hk hk2) ?_
  rintro ⟨u, st2⟩
  split
  · refine bindOk (st2.gen_ok 1 100 (by omega) (by omega)) ?_
    rintro ⟨r1, st3⟩
    refine bindOk (st3.gen_ok 1 100 (by omega) (by omega)) ?_
    rintro ⟨r2, st4⟩
    exact ⟨_, rfl⟩
  · exact ⟨_, rfl⟩

/-- The West/East pass never raises. -/
theorem wePass_ok (p : GridParams) (hc : 0 ≤ p.mincost) (hc2 : 0 ≤ p.maxcost)
    (hk : 0 ≤ p.mincap) (hk2 : 0 ≤ p.maxcap) (sc : Int) (st : GridSt) :
    ∃ st', wePass p sc st = .ok st' :=
  foldlM_ok _ (fun st i => foldlM_ok _
    (fun st j => weBody_ok p hc hc2 hk hk2 sc i st j) _ st) _ st

/-- The East/West pass never raises. -/
theorem ewPass_ok (p : GridParams)
    (hpl : ∀ t h st, ∃ st', plainArc p t h st = .ok st') (st : GridSt) :
    ∃ st', ewPass p st = .ok st' := by
  simp only [ewPass]
  split
  · exact foldlM_ok _ (fun st i => foldlM_ok _ (fun st j => hpl _ _ _) _ st) _ st
  · exact ⟨_, rfl⟩

/-- The North/South pass never raises. -/
theorem nsPass_ok (p : GridParams)
    (hpl : ∀ t h st, ∃ st', plainArc p t h st = .ok st') (st : GridSt) :
    ∃ st', nsPass p st = .ok st' := by
  refine foldlM_ok _ (fun st j => ?_) _ st
  refine bindOk (foldlM_ok _ (fun st i => hpl _ _ _) _ _) ?_
  intro st1
  split
  · exact hpl _ _ _
  · exact ⟨_, rfl⟩

/-- The South/North pass never raises. -/
theorem snPass_ok (p : GridParams)
    (hpl : ∀ t h st, ∃ st', plainArc p t h st = .ok st') (st : GridSt) :
    ∃ st', snPass p st = .ok st' := by
  refine foldlM_ok _ (fun st j => ?_) _ st
  refine bindOk (foldlM_ok _ (fun st i => hpl _ _ _) _ _) ?_
  intro st1
  split
  · exact hpl _ _ _
  · exact ⟨_, rfl⟩

/-- The Northwest/Southeast pass never raises. -/
theorem nwsePass_ok (p : GridParams)
    (hpl : ∀ t h st, ∃ st', plainArc p t h st = .ok st') (st : GridSt) :
    ∃ st', nwsePass p st = .ok st' := by
  simp only [nwsePass]
  split
  · refine foldlM_ok _ (fun st j => ?_) _ st
    refine bindOk (foldlM_ok _ (fun st i => hpl _ _ _) _ _) ?_
    intro st1
    split
    · exact hpl _ _ _
    · exact ⟨_, rfl⟩
  · exact ⟨_, rfl⟩

/-- The Southwest/Northeast pass never raises. -/
theorem swnePass_ok (p : GridParams)
    (hpl : ∀ t h st, ∃ st', plainArc p t h st = .ok st') (st : GridSt) :
    ∃ st', swnePass p st = .ok st' := by
  simp only [swnePass]
  split
  · refine foldlM_ok _ (fun st j => ?_) _ st
    refine bindOk (foldlM_ok _ (fun st i => hpl _ _ _) _ _) ?_
    intro st1
    split
    · exact hpl _ _ _
    · exact ⟨_, rfl⟩
  · exact ⟨_, rfl⟩

/-- The Southeast/Northwest pass never raises. -/
theorem senwPass_ok (p : GridParams)
    (hpl : ∀ t h st, ∃ st', plainArc p t h st = .ok st') (st : GridSt) :
    ∃ st', senwPass p st = .ok st' := by
  simp only [senwPass]
  split
  · refine foldlM_ok _ (fun st j => ?_) _ st
    refine bindOk (foldlM_ok _ (fun st i => hpl _ _ _) _ _) ?_
    intro st1
    split
    · exact hpl _ _ _
    · exact ⟨_, rfl⟩
  · exact ⟨_, rfl⟩

/-- The Northeast/Southwest pass never raises. -/
theorem neswPass_ok (p : GridParams)
    (hpl : ∀ t h st, ∃ st', plainArc p t h st = .ok st') (st : GridSt) :
    ∃ st', neswPass p st = .ok st' := by
  simp only [neswPass]
  split
  · refine foldlM_ok _ (fun st j => ?_) _ st
    refine bindOk (foldlM_ok _ (fun st i => hpl _ _ _) _ _) ?_
    intro st1
    split
    · exact hpl _ _ _
    · exact ⟨_, rfl⟩
  · exact ⟨_, rfl⟩

/-- The whole grid `_create_problem` never raises when the cost and
capacity ranges are nonnegative. -/
theorem grid_create_problem_ok (p : GridParams) (hc : 0 ≤ p.mincost)
    (hcm : p.mincost ≤ p.maxcost) (hk : 0 ≤ p.mincap) (hkm : p.mincap ≤ p.maxcap)
    (st : GridSt) : ∃ st', grid_create_problem p st = .ok st' := by
  have hc2 : 0 ≤ p.maxcost := le_trans hc hcm
  have hk2 : 0 ≤ p.maxcap := le_trans hk hkm
  have hpl : ∀ t h st, ∃ st', plainArc p t h st = .ok st' :=
    plainArc_ok p hc hc2 hk hk2
  simp only [grid_create_problem]
  refine bindOk (wePass_ok p hc hc2 hk hk2 _ _) ?_
  intro st1
  refine bindOk (ewPass_ok p hpl _) ?_
  intro st2
  refine bindOk (nsPass_ok p hpl _) ?_
  intro st3
  refine bindOk (snPass_ok p hpl _) ?_
  intro st4
  refine bindOk (nwsePass_ok p hpl _) ?_
  intro st5
  refine bindOk (swnePass_ok p hpl _) ?_
  intro st6
  refine bindOk (senwPass_ok p hpl _) ?_
  intro st7
  refine bindOk (neswPass_ok p hpl _) ?_
  intro st8
  exact ⟨_, rfl⟩

/-- C10: for every otherwise-valid grid parameter set (the validated
invariants, plus nonnegative cost and capacity ranges so the RNG bounds
are legal), construction succeeds exactly when no `type` override is
supplied; with an in-range override it raises the `AttributeError` from
the undefined `self.sources` before any arc is generated. -/
theorem C10_grid_override_attribute_error (p : GridParams) (h1 : 1 ≤ p.rows)
    (h2 : 1 ≤ p.columns) (h3 : 0 ≤ p.skeleton) (h4 : p.skeleton ≤ p.rows)
    (h5 : p.mincost ≤ p.maxcost) (h6 : 0 ≤ p.hicost) (h7 : p.hicost ≤ 100)
    (h8 : 0 ≤ p.capacitated) (h9 : p.capacitated ≤ 100)
    (h10 : p.mincap ≤ p.maxcap) (hc : 0 ≤ p.mincost) (hk : 0 ≤ p.mincap) :
    (isOkB (gridInit p) = true ↔ p.type_ = none) ∧
    (∀ t, p.type_ = some t → 0 ≤ t → t ≤ 1 →
      gridInit p =
        .error "AttributeError: 'GridNetworkGenerator' object has no attribute 'sources'") := by
  have hval : gridInit p = (match p.type_ with
      | some t =>
        if t < 0 ∨ t > 1 then
          .error "ValueError: problem type index must be 0, 1, or None"
        else
          .error "AttributeError: 'GridNetworkGenerator' object has no attribute 'sources'"
      | none => grid_create_problem p { rng := p.seed, tpe := 0, arcs := [] }) := by
    simp only [gridInit]
    rw [if_neg (by omega), if_neg (by omega), if_neg (by omega),
      if_neg (by omega), if_neg (by omega), if_neg (by omega), if_neg (by omega)]
  rcases htp : p.type_ with _ | t
  · have hval2 : gridInit p =
        grid_create_problem p { rng := p.seed, tpe := 0, arcs := [] } := by
      rw [hval, htp]
    obtain ⟨st', hok⟩ := grid_create_problem_ok p hc h5 hk h10
      { rng := p.seed, tpe := 0, arcs := [] }
    constructor
    · rw [hval2, hok]
      simp [isOkB]
    · intro t ht
      exact absurd ht (by simp)
  · have hval2 : gridInit p = (if t < 0 ∨ t > 1 then
        (.error "ValueError: problem type index must be 0, 1, or None" :
          Except String GridSt)
      else
        .error "AttributeError: 'GridNetworkGenerator' object has no attribute 'sources'") := by
      rw [hval, htp]
    constructor
    · rw [hval2]
      split <;> simp [isOkB]
    · intro t' ht h0 h1'
      have het : t = t' := by injection ht
      rw [hval2, if_neg (by omega)]

/-- C10 witness: the theorem applied to the one-cell grid, without and
with the `type=1` override. -/
theorem C10_grid_override_attribute_error_witness :
    (isOkB (gridInit gridOneCell) = true ↔ gridOneCell.type_ = none) ∧
    gridInit { gridOneCell with type_ := some 1 } =
      .error "AttributeError: 'GridNetworkGenerator' object has no attribute 'sources'" :=
  ⟨(C10_grid_override_attribute_error gridOneCell (by decide) (by decide)
      (by decide) (by decide) (by decide) (by decide) (by decide) (by decide)
      (by decide) (by decide) (by decide) (by decide)).1,
   (C10_grid_override_attribute_error { gridOneCell with type_ := some 1 }
      (by decide) (by decide) (by decide) (by decide) (by decide) (by decide)
      (by decide) (by decide) (by decide) (by decide) (by decide)
      (by decide)).2 1 rfl (by decide) (by decide)⟩

end Pynetgen
